import Mathlib

/-!
Shallow embedding of the resume-analysis pipeline of this repository.

The embedded code is `src/services/geminiService.ts` (the function
`analyzeResume` together with the `AnalysisResult` interface and the
response schema it sends to the backend) and the input guard of
`handleAnalyze` in `src/App.tsx`.

Modelling conventions:
* JavaScript strings are modelled as Lean `String`; `slice(0, n)` on
  UTF-16 code units is modelled as taking the first `n` characters.
* `JSON.parse` is modelled by an executable recursive-descent parser
  `parseJson` over a JSON value type `JsonVal`.  JSON numbers are
  modelled as integers (every numeric value occurring in the analysed
  behaviour is integral); a parse failure is `none`, mirroring the
  exception thrown by `JSON.parse`.
* The remote call `ai.models.generateContent` is an injected capability:
  a function from the prompt to `Except String String` (transport error
  or response body `response.text`, with a missing/empty body modelled
  as the empty string, which is exactly the falsy case of `!text`).
* The `try/catch` of `analyzeResume` is modelled in two layers:
  `analyzeCore` classifies the outcome at the individual throw sites
  (`AnalysisFailure`), and `analyzeResume` collapses every failure into
  the single thrown message, as the `catch` block does.
-/

/-- JSON values as produced by `JSON.parse` (numbers restricted to
integers, objects as association lists in source order). -/
inductive JsonVal where
  | null : JsonVal
  | bool (b : Bool) : JsonVal
  | num (n : Int) : JsonVal
  | str (s : String) : JsonVal
  | arr (items : List JsonVal) : JsonVal
  | obj (members : List (String × JsonVal)) : JsonVal

/-- The double-quote character. -/
def qch : Char := Char.ofNat 34

/-- The backslash character. -/
def bsl : Char := Char.ofNat 92

/-- The opening-brace character. -/
def lbr : Char := Char.ofNat 123

/-- The closing-brace character. -/
def rbr : Char := Char.ofNat 125

/-- JSON insignificant whitespace (RFC 8259: space, tab, line feed,
carriage return). -/
def isJsonWs (c : Char) : Bool :=
  c = ' ' || c = Char.ofNat 9 || c = Char.ofNat 10 || c = Char.ofNat 13

/-- Skip insignificant whitespace. -/
def skipWs (cs : List Char) : List Char := cs.dropWhile isJsonWs

/-- Parse the remainder of a JSON string literal (the opening quote is
already consumed); returns the decoded characters and the rest. -/
def parseStrChars : List Char → Option (List Char × List Char)
  | [] => none
  | c :: rest =>
    if c = qch then some ([], rest)
    else if c = bsl then
      match rest with
      | [] => none
      | e :: rest2 =>
        let dec : Option Char :=
          if e = qch then some qch
          else if e = bsl then some bsl
          else if e = '/' then some '/'
          else if e = 'n' then some (Char.ofNat 10)
          else if e = 't' then some (Char.ofNat 9)
          else if e = 'r' then some (Char.ofNat 13)
          else none
        match dec with
        | none => none
        | some d =>
          match parseStrChars rest2 with
          | none => none
          | some (s, rem) => some (d :: s, rem)
    else
      match parseStrChars rest with
      | none => none
      | some (s, rem) => some (c :: s, rem)

/-- Numeric value of a digit run. -/
def natOfDigits (ds : List Char) : Nat :=
  ds.foldl (fun a c => a * 10 + (c.toNat - 48)) 0

mutual

/-- Fuel-indexed JSON value parser; consumes one value and returns it
with the unconsumed remainder. -/
def parseVal : Nat → List Char → Option (JsonVal × List Char)
  | 0, _ => none
  | fuel + 1, cs =>
    match skipWs cs with
    | [] => none
    | c :: rest =>
      if c = qch then
        match parseStrChars rest with
        | some (s, rem) => some (JsonVal.str (String.mk s), rem)
        | none => none
      else if c = lbr then
        match skipWs rest with
        | d :: rest2 =>
          if d = rbr then some (JsonVal.obj [], rest2)
          else parseMembers fuel (d :: rest2)
        | [] => none
      else if c = '[' then
        match skipWs rest with
        | d :: rest2 =>
          if d = ']' then some (JsonVal.arr [], rest2)
          else parseItems fuel (d :: rest2)
        | [] => none
      else if c = 't' then
        match rest with
        | 'r' :: 'u' :: 'e' :: rem => some (JsonVal.bool true, rem)
        | _ => none
      else if c = 'f' then
        match rest with
        | 'a' :: 'l' :: 's' :: 'e' :: rem => some (JsonVal.bool false, rem)
        | _ => none
      else if c = 'n' then
        match rest with
        | 'u' :: 'l' :: 'l' :: rem => some (JsonVal.null, rem)
        | _ => none
      else if c = '-' then
        match rest.takeWhile Char.isDigit with
        | [] => none
        | ds => some (JsonVal.num (-(Int.ofNat (natOfDigits ds))), rest.dropWhile Char.isDigit)
      else if Char.isDigit c then
        some (JsonVal.num (Int.ofNat (natOfDigits ((c :: rest).takeWhile Char.isDigit))),
              (c :: rest).dropWhile Char.isDigit)
      else none

/-- Parse a non-empty comma-separated list of array items ending in `]`. -/
def parseItems : Nat → List Char → Option (JsonVal × List Char)
  | 0, _ => none
  | fuel + 1, cs =>
    match parseVal fuel cs with
    | none => none
    | some (v, rem) =>
      match skipWs rem with
      | c :: rest =>
        if c = ',' then
          match parseItems fuel rest with
          | some (JsonVal.arr vs, rem2) => some (JsonVal.arr (v :: vs), rem2)
          | _ => none
        else if c = ']' then some (JsonVal.arr [v], rest)
        else none
      | [] => none

/-- Parse a non-empty comma-separated list of object members ending in
the closing brace. -/
def parseMembers : Nat → List Char → Option (JsonVal × List Char)
  | 0, _ => none
  | fuel + 1, cs =>
    match skipWs cs with
    | c :: rest =>
      if c = qch then
        match parseStrChars rest with
        | some (k, rem) =>
          match skipWs rem with
          | d :: rest2 =>
            if d = ':' then
              match parseVal fuel rest2 with
              | some (v, rem2) =>
                match skipWs rem2 with
                | e :: rest3 =>
                  if e = ',' then
                    match parseMembers fuel rest3 with
                    | some (JsonVal.obj ms, rem3) =>
                      some (JsonVal.obj ((String.mk k, v) :: ms), rem3)
                    | _ => none
                  else if e = rbr then some (JsonVal.obj [(String.mk k, v)], rest3)
                  else none
                | [] => none
              | none => none
            else none
          | [] => none
        | none => none
      else none
    | [] => none

end

/-- Model of `JSON.parse`: parse one JSON value, requiring that only
whitespace follows it; any violation is a parse failure (`none`),
mirroring the thrown `SyntaxError`. -/
def parseJson (s : String) : Option JsonVal :=
  match parseVal (s.length + 1) s.data with
  | some (v, rem) => if skipWs rem = [] then some v else none
  | none => none

/-- First fixed segment of the prompt template literal (up to the
`Resume Text:` interpolation). -/
def promptLit1 : String :=
  "\n    You are a professional Resume Analyzer, ATS Expert, and Career Coach.\n    Analyze the user\x27s resume based on the target job role and experience level provided.\n    \n    USER INPUT:\n    Resume Text: "

/-- Fixed segment between the resume text and the target role. -/
def promptLit2 : String := "\n    Target Job Role: "

/-- Fixed segment between the target role and the experience level. -/
def promptLit3 : String := "\n    Experience Level: "

/-- Fixed tail of the prompt template literal. -/
def promptLit4 : String :=
  "\n\n    INSTRUCTIONS:\n    Analyze based on:\n    - Grammar and language accuracy\n    - Professional tone and clarity\n    - ATS compatibility\n    - Relevance to the target job role\n    - Skills strength and gaps\n\n    Provide the response strictly as a JSON object matching the schema.\n  "

/-- `const truncatedText = resumeText.slice(0, 15000)`. -/
def truncateText (resumeText : String) : String :=
  String.mk (resumeText.data.take 15000)

/-- The rendered prompt: the template literal of `analyzeResume` with
the three interpolations substituted. -/
def buildPrompt (resumeText targetRole experienceLevel : String) : String :=
  promptLit1 ++ truncateText resumeText ++ promptLit2 ++ targetRole ++
    promptLit3 ++ experienceLevel ++ promptLit4

/-- The distinct failure sites inside the `try` block of
`analyzeResume`, before the `catch` collapses them:
* `transportFailure` — `ai.models.generateContent` itself threw;
* `emptyResponse` — the `throw new Error("Empty AI response")` taken
  when `response.text` is falsy;
* `malformedResponse` — `JSON.parse(text)` threw; the offending raw
  body is retained. -/
inductive AnalysisFailure where
  | transportFailure (e : String) : AnalysisFailure
  | emptyResponse : AnalysisFailure
  | malformedResponse (raw : String) : AnalysisFailure

/-- Body of the `try` block of `analyzeResume`, given the outcome of
the single `generateContent` call: classify the outcome.  The success
payload is the parsed JSON value itself, because
`JSON.parse(text) as AnalysisResult` is a static cast with no runtime
check. -/
def analyzeCore (gen : Except String String) : Except AnalysisFailure JsonVal :=
  match gen with
  | Except.error e => Except.error (AnalysisFailure.transportFailure e)
  | Except.ok text =>
    if text = "" then Except.error AnalysisFailure.emptyResponse
    else
      match parseJson text with
      | none => Except.error (AnalysisFailure.malformedResponse text)
      | some j => Except.ok j

/-- The one message thrown to callers by the `catch` block. -/
def failureMessage : String := "Failed to analyze resume. Please try again."

/-- `analyzeResume(resumeText, targetRole, experienceLevel)` with the
remote generation capability injected: build the prompt, make the one
call, classify, and collapse every failure into the single thrown
message, as the `catch` block does. -/
def analyzeResume (resumeText targetRole experienceLevel : String)
    (gen : String → Except String String) : Except String JsonVal :=
  match analyzeCore (gen (buildPrompt resumeText targetRole experienceLevel)) with
  | Except.ok j => Except.ok j
  | Except.error _ => Except.error failureMessage

/-- Instrumented variant recording how many times the generation
capability is consulted; the oracle is indexed by call number.  The
source has a single `await ai.models.generateContent(...)` with no loop
or retry, so exactly the first oracle entry is consumed. -/
def analyzeCoreCalls (resumeText targetRole experienceLevel : String)
    (gen : Nat → String → Except String String) :
    Except AnalysisFailure JsonVal × Nat :=
  (analyzeCore (gen 0 (buildPrompt resumeText targetRole experienceLevel)), 1)

/-- Is this JSON value a string? -/
def isStrVal : JsonVal → Bool
  | JsonVal.str _ => true
  | _ => false

/-- Is this JSON value a number? -/
def isNumVal : JsonVal → Bool
  | JsonVal.num _ => true
  | _ => false

/-- Is this JSON value an array of strings? -/
def isStrArr : JsonVal → Bool
  | JsonVal.arr xs => xs.all isStrVal
  | _ => false

/-- Does the object have member `k` satisfying `p`?  (Required-field
check for one field.) -/
def hasField (ms : List (String × JsonVal)) (k : String) (p : JsonVal → Bool) : Bool :=
  match List.lookup k ms with
  | some v => p v
  | none => false

/-- One entry of `grammarImprovements.corrections`: an object with
required string members `original` and `improved`. -/
def isCorrection : JsonVal → Bool
  | JsonVal.obj ms => hasField ms "original" isStrVal && hasField ms "improved" isStrVal
  | _ => false

/-- One entry of `sevenDayActionPlan`: an object with required members
`day` (number) and `task` (string). -/
def isPlanStep : JsonVal → Bool
  | JsonVal.obj ms => hasField ms "day" isNumVal && hasField ms "task" isStrVal
  | _ => false

/-- Structural completeness of a parsed response against the
`AnalysisResult` interface and the `required` lists of the
`responseSchema` sent to the backend: every required top-level and
nested field present with a well-typed value. -/
def isCompleteReport : JsonVal → Bool
  | JsonVal.obj ms =>
    hasField ms "overallScore" isNumVal &&
    hasField ms "grammarImprovements" (fun g =>
      match g with
      | JsonVal.obj gm =>
        hasField gm "mistakes" isStrArr &&
        hasField gm "corrections" (fun c =>
          match c with
          | JsonVal.arr cs => cs.all isCorrection
          | _ => false)
      | _ => false) &&
    hasField ms "atsOptimization" (fun a =>
      match a with
      | JsonVal.obj am =>
        hasField am "missingKeywords" isStrArr &&
        hasField am "formattingIssues" isStrArr &&
        hasField am "sectionOrderImprovements" isStrVal
      | _ => false) &&
    hasField ms "skillGapAnalysis" (fun s =>
      match s with
      | JsonVal.obj sm =>
        hasField sm "missingOrWeakSkills" isStrArr &&
        hasField sm "suggestions" isStrArr
      | _ => false) &&
    hasField ms "sectionFeedback" (fun s =>
      match s with
      | JsonVal.obj sm =>
        hasField sm "professionalSummary" isStrVal &&
        hasField sm "skills" isStrVal &&
        hasField sm "experience" isStrVal &&
        hasField sm "education" isStrVal
      | _ => false) &&
    hasField ms "improvedSummary" isStrVal &&
    hasField ms "sevenDayActionPlan" (fun p =>
      match p with
      | JsonVal.arr ps => ps.all isPlanStep
      | _ => false)
  | _ => false

/-- The experience levels offered by the `select` element in
`App.tsx`. -/
def experienceLevels : List String := ["Student", "Fresher", "Junior", "Mid", "Senior"]

/-- Model of `String.prototype.trim`: remove leading and trailing
whitespace characters. -/
def trimStr (s : String) : String :=
  String.mk (((s.data.dropWhile Char.isWhitespace).reverse.dropWhile Char.isWhitespace).reverse)

/-- Outcome of the guard at the top of `handleAnalyze` in `App.tsx`:
either the validation error is reported (and the core is never
invoked), or `analyzeResume` is invoked with the three states. -/
inductive HandleAction where
  | reportError (msg : String) : HandleAction
  | invokeAnalyze (resumeText targetRole experienceLevel : String) : HandleAction

/-- The input guard of `handleAnalyze`:
`if (!resumeText.trim() || !targetRole.trim())` report the validation
message and return; otherwise call `analyzeResume`. -/
def handleAnalyze (resumeText targetRole experienceLevel : String) : HandleAction :=
  if trimStr resumeText = "" ∨ trimStr targetRole = "" then
    HandleAction.reportError "Please provide both resume text and target job role."
  else
    HandleAction.invokeAnalyze resumeText targetRole experienceLevel

/-- Deterministic build relation: `BuildsPrompt d r l p` holds when one
run of the request-building step on inputs `(d, r, l)` produces prompt
text `p`.  The step is the straight-line code at the top of
`analyzeResume` (truncation plus template rendering), so a run can only
produce `buildPrompt d r l`. -/
inductive BuildsPrompt : String → String → String → String → Prop where
  | run (d r l : String) : BuildsPrompt d r l (buildPrompt d r l)

/-- Is the body non-empty but made of JSON whitespace only? -/
def wsOnly (t : String) : Bool := !t.data.isEmpty && t.data.all isJsonWs

/-- A document of 15,001 characters, for exercising the truncation
boundary. -/
def bigStr : String := String.mk (List.replicate 15001 'a')

/-- Tail of a synthetic backend response body: every required field
except `overallScore`, with well-typed values (`sevenDayActionPlan`
deliberately carries `day = 9`). -/
def bodyTail : String :=
  "\"grammarImprovements\":\x7b\"mistakes\":[\"m1\"],\"corrections\":[\x7b\"original\":\"o1\",\"improved\":\"i1\"\x7d]\x7d,\"atsOptimization\":\x7b\"missingKeywords\":[\"k1\"],\"formattingIssues\":[],\"sectionOrderImprovements\":\"s1\"\x7d,\"skillGapAnalysis\":\x7b\"missingOrWeakSkills\":[\"w1\"],\"suggestions\":[\"g1\"]\x7d,\"sectionFeedback\":\x7b\"professionalSummary\":\"p1\",\"skills\":\"s2\",\"experience\":\"e1\",\"education\":\"d1\"\x7d,\"improvedSummary\":\"u1\",\"sevenDayActionPlan\":[\x7b\"day\":9,\"task\":\"t1\"\x7d]\x7d"

/-- A fully valid synthetic backend response body, with the
out-of-range values `overallScore = 150` and `day = 9`. -/
def sampleBody : String := "\x7b\"overallScore\":150," ++ bodyTail

/-- The same body with the required field `overallScore` removed. -/
def bodyNoScore : String := "\x7b" ++ bodyTail

/-- Parsed members shared by `sampleBody` and `bodyNoScore` (everything
except `overallScore`). -/
def sampleTailMembers : List (String × JsonVal) := [
  ("grammarImprovements", JsonVal.obj [
    ("mistakes", JsonVal.arr [JsonVal.str "m1"]),
    ("corrections", JsonVal.arr [JsonVal.obj [("original", JsonVal.str "o1"), ("improved", JsonVal.str "i1")]])]),
  ("atsOptimization", JsonVal.obj [
    ("missingKeywords", JsonVal.arr [JsonVal.str "k1"]),
    ("formattingIssues", JsonVal.arr []),
    ("sectionOrderImprovements", JsonVal.str "s1")]),
  ("skillGapAnalysis", JsonVal.obj [
    ("missingOrWeakSkills", JsonVal.arr [JsonVal.str "w1"]),
    ("suggestions", JsonVal.arr [JsonVal.str "g1"])]),
  ("sectionFeedback", JsonVal.obj [
    ("professionalSummary", JsonVal.str "p1"),
    ("skills", JsonVal.str "s2"),
    ("experience", JsonVal.str "e1"),
    ("education", JsonVal.str "d1")]),
  ("improvedSummary", JsonVal.str "u1"),
  ("sevenDayActionPlan", JsonVal.arr [JsonVal.obj [("day", JsonVal.num 9), ("task", JsonVal.str "t1")]])]

/-- The JSON value `JSON.parse(sampleBody)` produces. -/
def sampleJson : JsonVal := JsonVal.obj (("overallScore", JsonVal.num 150) :: sampleTailMembers)

/-- The JSON value `JSON.parse(bodyNoScore)` produces: a structurally
incomplete report. -/
def jsonNoScore : JsonVal := JsonVal.obj sampleTailMembers

/-- C2: every backend response body that parses successfully and
contains all required fields with well-typed values is returned by
`analyze` as a report equal to the parsed value, with no clamping,
rounding, or reinterpretation of any field. -/
theorem complete_report_roundtrip (d r l : String)
    (gen : String → Except String String) (body : String) (j : JsonVal)
    (hgen : gen (buildPrompt d r l) = Except.ok body)
    (hparse : parseJson body = some j)
    (_hcomplete : isCompleteReport j = true) :
    analyzeResume d r l gen = Except.ok j := by
  have hne : body ≠ "" := by
    intro he
    rw [he, show parseJson "" = none from rfl] at hparse
    exact Option.noConfusion hparse
  simp only [analyzeResume, analyzeCore, hgen, hparse, hne, if_neg, ite_false]

set_option maxRecDepth 100000 in
/-- Witness for C2 at the synthetic body carrying the out-of-range
values `overallScore = 150` and `sevenDayActionPlan[0].day = 9`: it is
accepted unchanged as a valid report. -/
theorem complete_report_roundtrip_witness :
    analyzeResume "doc" "role" "Junior" (fun _ => Except.ok sampleBody) = Except.ok sampleJson
    ∧ isCompleteReport sampleJson = true :=
  ⟨complete_report_roundtrip "doc" "role" "Junior" (fun _ => Except.ok sampleBody)
      sampleBody sampleJson rfl (by rfl) (by rfl),
   by rfl⟩

set_option maxRecDepth 100000 in
/-- C1 counterexample: a backend response body that parses but is
missing the required field `overallScore` is NOT rejected — `analyze`
returns the partial object as a success, so no `SchemaViolation`
error is produced. -/
theorem missing_field_counterexample :
    analyzeResume "doc" "role" "Junior" (fun _ => Except.ok bodyNoScore) = Except.ok jsonNoScore
    ∧ isCompleteReport jsonNoScore = false := by
  exact ⟨by rfl, by rfl⟩

/-- C1 (amended): `analyzeResume` performs no client-side schema
validation — every response body that parses as JSON is returned as a
successful report even when required fields are missing; the code has
no `SchemaViolation` outcome at all (`JSON.parse(text) as
AnalysisResult` is an unchecked static cast). -/
theorem missing_field_passthrough (d r l : String)
    (gen : String → Except String String) (body : String) (j : JsonVal)
    (hgen : gen (buildPrompt d r l) = Except.ok body)
    (hparse : parseJson body = some j)
    (_hmissing : isCompleteReport j = false) :
    analyzeResume d r l gen = Except.ok j := by
  have hne : body ≠ "" := by
    intro he
    rw [he, show parseJson "" = none from rfl] at hparse
    exact Option.noConfusion hparse
  simp only [analyzeResume, analyzeCore, hgen, hparse, hne, if_neg, ite_false]

set_option maxRecDepth 100000 in
/-- Witness for the amended C1 at the concrete body missing
`overallScore`. -/
theorem missing_field_passthrough_witness :
    analyzeResume "cv" "engineer" "Mid" (fun _ => Except.ok bodyNoScore) = Except.ok jsonNoScore :=
  missing_field_passthrough "cv" "engineer" "Mid" (fun _ => Except.ok bodyNoScore)
    bodyNoScore jsonNoScore rfl (by rfl) (by rfl)

/-- C3: the document text embedded in the built request is exactly the
first 15,000 characters when the input is longer (the truncation has no
error path and emits no signal), and is the unchanged input when its
length is at most 15,000. -/
theorem truncation_policy (d r l : String) :
    buildPrompt d r l =
      promptLit1 ++ truncateText d ++ promptLit2 ++ r ++ promptLit3 ++ l ++ promptLit4
    ∧ (15000 < d.length →
        (truncateText d).data = d.data.take 15000 ∧ (truncateText d).length = 15000)
    ∧ (d.length ≤ 15000 → truncateText d = d) := by
  refine ⟨rfl, fun h => ⟨rfl, ?_⟩, fun h => ?_⟩
  · show (d.data.take 15000).length = 15000
    rw [List.length_take]
    exact Nat.min_eq_left (Nat.le_of_lt h)
  · show String.mk (d.data.take 15000) = d
    rw [List.take_of_length_le h]

/-- Witness for C3 at a document of 15,001 characters: the embedded
text has exactly 15,000 characters. -/
theorem truncation_policy_witness :
    (truncateText bigStr).length = 15000 :=
  ((truncation_policy bigStr "role" "Junior").2.1 (by
      rw [show bigStr.length = (List.replicate 15001 'a').length from rfl,
        List.length_replicate]
      decide)).2

/-- C4: prompt construction is deterministic — two runs of the
request-building step on the same `(documentText, targetRole,
experienceLevel)` produce identical prompt text. -/
theorem prompt_deterministic (d r l p₁ p₂ : String)
    (h₁ : BuildsPrompt d r l p₁) (h₂ : BuildsPrompt d r l p₂) : p₁ = p₂ := by
  cases h₁
  cases h₂
  rfl

/-- Witness for C4 at concrete inputs. -/
theorem prompt_deterministic_witness :
    buildPrompt "doc" "role" "Junior" = buildPrompt "doc" "role" "Junior" :=
  prompt_deterministic "doc" "role" "Junior" _ _
    (BuildsPrompt.run "doc" "role" "Junior") (BuildsPrompt.run "doc" "role" "Junior")

/-- C5 counterexample: a whitespace-only body (a single space) is NOT
classified as `emptyResponse` — the falsy test `!text` only catches
the empty string, so the space falls through to `JSON.parse` and is
classified as `malformedResponse`. -/
theorem whitespace_body_counterexample :
    analyzeCore (Except.ok " ") = Except.error (AnalysisFailure.malformedResponse " ")
    ∧ analyzeCore (Except.ok " ") ≠ Except.error AnalysisFailure.emptyResponse := by
  refine ⟨rfl, ?_⟩
  intro h
  rw [show analyzeCore (Except.ok " ") =
      Except.error (AnalysisFailure.malformedResponse " ") from rfl] at h
  injection h with h2
  exact AnalysisFailure.noConfusion h2

/-- C5 (amended): a successful generation call whose body is the empty
string yields `emptyResponse`; a body that is non-empty but consists
only of whitespace characters is not caught by the `!text` test and
yields `malformedResponse` instead. -/
theorem empty_body_classification (t : String) :
    (t = "" → analyzeCore (Except.ok t) = Except.error AnalysisFailure.emptyResponse)
    ∧ (wsOnly t = true →
        analyzeCore (Except.ok t) = Except.error (AnalysisFailure.malformedResponse t)) := by
  constructor
  · intro h
    rw [h]
    rfl
  · intro h
    simp only [wsOnly, Bool.and_eq_true, Bool.not_eq_true', List.all_eq_true] at h
    obtain ⟨hne', hall⟩ := h
    have hne : t ≠ "" := by
      intro he
      rw [he] at hne'
      exact absurd hne' (by decide)
    have hskip : skipWs t.data = [] := by
      rw [skipWs, List.dropWhile_eq_nil_iff]
      exact hall
    have hval : parseVal (t.length + 1) t.data = none := by
      simp only [parseVal, hskip]
    have hparse : parseJson t = none := by
      simp only [parseJson, hval]
    simp only [analyzeCore, hne, hparse, if_neg, ite_false]

/-- Witness for the amended C5 at the empty body and at a single-space
body. -/
theorem empty_body_classification_witness :
    analyzeCore (Except.ok "") = Except.error AnalysisFailure.emptyResponse
    ∧ analyzeCore (Except.ok " ") = Except.error (AnalysisFailure.malformedResponse " ") :=
  ⟨(empty_body_classification "").1 rfl, (empty_body_classification " ").2 (by decide)⟩

/-- C6: a non-empty response body that does not parse as JSON is
classified as `malformedResponse`, carrying the raw text, and is never
surfaced as a report. -/
theorem malformed_body_rejection (d r l : String)
    (gen : String → Except String String) (body : String)
    (hgen : gen (buildPrompt d r l) = Except.ok body)
    (hne : body ≠ "")
    (hparse : parseJson body = none) :
    analyzeCore (gen (buildPrompt d r l)) = Except.error (AnalysisFailure.malformedResponse body)
    ∧ ∀ j : JsonVal, analyzeCore (gen (buildPrompt d r l)) ≠ Except.ok j := by
  have hmain : analyzeCore (gen (buildPrompt d r l)) =
      Except.error (AnalysisFailure.malformedResponse body) := by
    simp only [analyzeCore, hgen, hparse, hne, if_neg, ite_false]
  refine ⟨hmain, fun j hj => ?_⟩
  rw [hmain] at hj
  exact Except.noConfusion hj

/-- Witness for C6 at the concrete non-JSON body `"not json"`. -/
theorem malformed_body_rejection_witness :
    analyzeCore ((fun _ => Except.ok "not json") (buildPrompt "doc" "role" "Junior")) =
      Except.error (AnalysisFailure.malformedResponse "not json") :=
  (malformed_body_rejection "doc" "role" "Junior" (fun _ => Except.ok "not json")
    "not json" rfl (by decide) (by rfl)).1

/-- C7: when the generation capability fails at the transport level,
the result is `transportFailure` (carrying the transport error, with no
parsing of any body), the capability is consulted exactly once, and
the outcome depends only on the first (single) call — there is no
retry at any layer. -/
theorem transport_failure_passthrough (d r l : String)
    (gen : Nat → String → Except String String) (e : String)
    (hfail : gen 0 (buildPrompt d r l) = Except.error e) :
    (analyzeCoreCalls d r l gen).1 = Except.error (AnalysisFailure.transportFailure e)
    ∧ (analyzeCoreCalls d r l gen).2 = 1
    ∧ ∀ gen' : Nat → String → Except String String, gen' 0 = gen 0 →
        analyzeCoreCalls d r l gen' = analyzeCoreCalls d r l gen := by
  refine ⟨?_, rfl, ?_⟩
  · simp only [analyzeCoreCalls, analyzeCore, hfail]
  · intro gen' hg
    simp only [analyzeCoreCalls, hg]

/-- Witness for C7 at a concrete failing capability. -/
theorem transport_failure_passthrough_witness :
    (analyzeCoreCalls "doc" "role" "Junior" (fun _ _ => Except.error "network error")).1 =
      Except.error (AnalysisFailure.transportFailure "network error")
    ∧ (analyzeCoreCalls "doc" "role" "Junior" (fun _ _ => Except.error "network error")).2 = 1 :=
  ⟨(transport_failure_passthrough "doc" "role" "Junior"
      (fun _ _ => Except.error "network error") "network error" rfl).1,
   (transport_failure_passthrough "doc" "role" "Junior"
      (fun _ _ => Except.error "network error") "network error" rfl).2.1⟩

/-- C8: when the resume text or the target role is empty after
trimming, `handleAnalyze` reports the validation message to the user
and never invokes `analyzeResume`. -/
theorem validation_guard (rt tr lvl : String)
    (h : trimStr rt = "" ∨ trimStr tr = "") :
    handleAnalyze rt tr lvl =
      HandleAction.reportError "Please provide both resume text and target job role."
    ∧ ∀ a b c : String, handleAnalyze rt tr lvl ≠ HandleAction.invokeAnalyze a b c := by
  have hmain : handleAnalyze rt tr lvl =
      HandleAction.reportError "Please provide both resume text and target job role." := by
    unfold handleAnalyze
    rw [if_pos h]
  refine ⟨hmain, fun a b c hc => ?_⟩
  rw [hmain] at hc
  exact HandleAction.noConfusion hc

/-- Witness for C8 with a whitespace-only resume text. -/
theorem validation_guard_witness :
    handleAnalyze "   " "Engineer" "Junior" =
      HandleAction.reportError "Please provide both resume text and target job role." :=
  (validation_guard "   " "Engineer" "Junior" (Or.inl (by decide))).1

/-- C9: `analyzeResume` accepts every string as `experienceLevel`
(there is no membership check against the enumerated set offered by
the UI): the level is embedded verbatim between two segments that do
not depend on it, and the call outcome for a fixed generation result
is identical across levels. -/
theorem experience_level_unchecked (d r l : String) :
    buildPrompt d r l =
      (promptLit1 ++ truncateText d ++ promptLit2 ++ r ++ promptLit3) ++ l ++ promptLit4
    ∧ ∀ resp : Except String String,
        analyzeResume d r l (fun _ => resp) = analyzeResume d r "Senior" (fun _ => resp) := by
  exact ⟨rfl, fun _ => rfl⟩

/-- C10: every failure of `analyzeResume` — transport failure, empty
body, or unparseable body — is thrown to the caller with the one
constant message, independent of the failure kind. -/
theorem uniform_failure_message (d r l : String)
    (gen : String → Except String String) (f : AnalysisFailure)
    (h : analyzeCore (gen (buildPrompt d r l)) = Except.error f) :
    analyzeResume d r l gen = Except.error failureMessage := by
  unfold analyzeResume
  rw [h]

/-- Witness for C10 at a concrete transport failure. -/
theorem uniform_failure_message_witness :
    analyzeResume "doc" "role" "Junior" (fun _ => Except.error "net") =
      Except.error failureMessage :=
  uniform_failure_message "doc" "role" "Junior" (fun _ => Except.error "net")
    (AnalysisFailure.transportFailure "net") rfl
